import Mathlib

/-!
Verification of the WiFi BSSID scanner repository (`wifi_scanner_linux.py`,
`wifi_scanner_windows.py`, `wifi_scanner_termux.py`).

The development shallowly embeds the output-parsing and normalization layer:

* the signal/channel normalizers `dbm_to_percent` and `freq_to_channel`
  (from `wifi_scanner_termux.py`) and the inline iwlist dBm conversion;
* the nmcli terse colon-delimited line parser (`get_wifi_bssids_nmcli`);
* the two multi-line cell-block parsers (netsh in `Windows.get_wifi_bssids`,
  iwlist in `get_wifi_bssids_iwlist`), including faithful models of the
  specific regular expressions they use;
* the Termux JSON parser (`Termux.get_wifi_bssids`) over an embedded JSON
  value type, with Python's dynamic failure modes made explicit as `PyErr`;
* the list-reordering effect of the presenter `print_networks`.

Python strings are modeled as `List Char`.  Character classes (digits,
whitespace, upper/lower case) are modeled at ASCII precision, which covers
the output alphabets of the scan tools; Python's Unicode-aware classes agree
with this model on ASCII input.  Python's in-place stable `list.sort` is
modeled by a stable insertion sort returning the reordered list.
-/

/-! ## Python string primitives on `List Char` -/

/-- Does `p` occur as a prefix of `s`?  (Python `str.startswith`.) -/
def isPrefixL : List Char → List Char → Bool
  | [], _ => true
  | _ :: _, [] => false
  | p :: ps, c :: cs => if p = c then isPrefixL ps cs else false

/-- Match the literal `p` at the front of `s` and return the remainder. -/
def dropLit : List Char → List Char → Option (List Char)
  | [], s => some s
  | _ :: _, [] => none
  | p :: ps, c :: cs => if p = c then dropLit ps cs else none

/-- Does `pat` occur as a substring of `s`?  (Python `in` on strings.) -/
def containsL (s pat : List Char) : Bool :=
  match s with
  | [] => pat.isEmpty
  | _ :: rest => isPrefixL pat s || containsL rest pat

/-- Strip whitespace from both ends (Python `str.strip`). -/
def pyStrip (s : List Char) : List Char :=
  ((s.dropWhile Char.isWhitespace).reverse.dropWhile Char.isWhitespace).reverse

/-- Lower-case every character (Python `str.lower`, ASCII precision). -/
def pyLower (s : List Char) : List Char := s.map Char.toLower

/-- Decimal value of a digit string (Python `int` on a digit string). -/
def digitsToNat (ds : List Char) : Nat :=
  ds.foldl (fun n c => 10 * n + (c.toNat - 48)) 0

/-- Python `str.isdigit`: non-empty and all digits. -/
def pyIsDigit (s : List Char) : Bool := !s.isEmpty && s.all Char.isDigit

/-- Split on a separator character (Python `str.split(sep)`):
always returns at least one (possibly empty) field. -/
def pySplit (sep : Char) : List Char → List (List Char)
  | [] => [[]]
  | c :: rest =>
    if c = sep then [] :: pySplit sep rest
    else
      match pySplit sep rest with
      | [] => [[c]]
      | h :: t => (c :: h) :: t

/-- Worker for `pyReplace`; the fuel is an upper bound on the number of
characters consumed, so `fuel = s.length` never runs out. -/
def pyReplaceAux (pat repl : List Char) : Nat → List Char → List Char
  | 0, s => s
  | _ + 1, [] => []
  | fuel + 1, c :: rest =>
    if isPrefixL pat (c :: rest) && !pat.isEmpty then
      repl ++ pyReplaceAux pat repl fuel ((c :: rest).drop pat.length)
    else
      c :: pyReplaceAux pat repl fuel rest

/-- Replace every non-overlapping occurrence of `pat`, left to right
(Python `str.replace` for a non-empty pattern). -/
def pyReplace (pat repl s : List Char) : List Char :=
  pyReplaceAux pat repl s.length s

/-- Build a `String` back from a character list. -/
def strOf (l : List Char) : String := ⟨l⟩

/-! ## The canonical network record

One observed access point, as built by all three parsers.  Python uses a
dict whose keys may be missing or bound to `None`; both states are modeled
as `none` (the code only ever reads the fields through `.get`, which
identifies the two). -/

structure Network where
  ssid : Option String := none
  bssid : Option String := none
  signal : Option Int := none
  channel : Option Int := none
  rssi_dbm : Option Int := none
  frequency_mhz : Option Int := none
deriving Repr, DecidableEq

/-- Python truthiness of an optional string (`current_network.get('bssid')`
used as a condition): present and non-empty. -/
def truthyStr : Option String → Bool
  | some s => !s.isEmpty
  | none => false

/-! ## Signal/channel normalizers (`wifi_scanner_termux.py`) -/

/-- Convert RSSI (dBm) to a signal percentage
(`dbm_to_percent`, `wifi_scanner_termux.py` lines 40-58).  In the middle
branch the numerator `100 * (rssi + 90)` is positive, so Lean's floor
division coincides with Python's `int(...)` truncation of the float
quotient. -/
def dbm_to_percent (rssi : Int) : Int :=
  if rssi ≥ -30 then 100
  else if rssi ≤ -90 then 0
  else 100 * (rssi + 90) / 60

/-- Convert a WiFi frequency (MHz) to a channel number
(`freq_to_channel`, `wifi_scanner_termux.py` lines 61-85). -/
def freq_to_channel (freq_mhz : Int) : Option Int :=
  if 2412 ≤ freq_mhz ∧ freq_mhz ≤ 2484 then
    if freq_mhz = 2484 then some 14
    else some ((freq_mhz - 2412) / 5 + 1)
  else if 5170 ≤ freq_mhz ∧ freq_mhz ≤ 5825 then
    some ((freq_mhz - 5170) / 5 + 34)
  else if 5955 ≤ freq_mhz ∧ freq_mhz ≤ 7115 then
    some ((freq_mhz - 5955) / 5 + 1)
  else none

/-- The iwlist parser's inline dBm-to-signal conversion
(`max(0, min(100, 2 * (dbm + 100)))`, `wifi_scanner_linux.py` line 106). -/
def iwDbmSignal (dbm : Int) : Int := max 0 (min 100 (2 * (dbm + 100)))

/-- The iwlist parser's ratio conversion `int(100 * a / b)`
(`wifi_scanner_linux.py` line 110), for `b ≠ 0`; both operands are
nonnegative, so floor division models the float truncation (exact at the
magnitudes a scan line can carry). -/
def ratioSignal (a b : Nat) : Int := (100 * (a : Int)) / (b : Int)

/-! ## nmcli terse parser (`wifi_scanner_linux.py` lines 41-63) -/

/-- Fields of one nmcli terse line: escaped colons are masked with the
`##COLON##` placeholder, then the line is split on `:`. -/
def nmcliFields (line : String) : List (List Char) :=
  pySplit ':' (pyReplace "\\:".data "##COLON##".data line.data)

/-- Parse one nmcli terse output line into a record; `none` when the line is
blank or has fewer than four fields. -/
def parse_nmcli_line (line : String) : Option Network :=
  if (pyStrip line.data).isEmpty then none
  else
    let parts := nmcliFields line
    if 4 ≤ parts.length then
      let ssid := pyReplace "##COLON##".data [':'] (parts.getD 0 [])
      let bssid := pyLower (pyReplace "##COLON##".data [':'] (parts.getD 1 []))
      let signal := parts.getD 2 []
      let channel := parts.getD 3 []
      some
        { ssid := some (if ssid.isEmpty then "<Hidden>" else strOf ssid)
          bssid := some (strOf bssid)
          signal := if pyIsDigit signal then some (digitsToNat signal : Int) else none
          channel := if pyIsDigit channel then some (digitsToNat channel : Int) else none }
    else none

/-- The nmcli scanner over the list of stdout lines. -/
def get_wifi_bssids_nmcli (lines : List String) : List Network :=
  lines.filterMap parse_nmcli_line

example :
    get_wifi_bssids_nmcli ["MyNet\\:Work:aa\\:bb\\:cc\\:dd\\:ee\\:ff:80:6"] =
      [{ ssid := some "MyNet:Work", bssid := some "aa:bb:cc:dd:ee:ff",
         signal := some 80, channel := some 6 }] := by decide

example :
    get_wifi_bssids_nmcli [":::"] =
      [{ ssid := some "<Hidden>", bssid := some "", signal := none, channel := none }] := by
  decide

/-! ## Models of the specific regular expressions used by the parsers

Each Python `re.search(pattern, line)` is modeled by a dedicated matcher
`m : List Char → Option γ` giving the captured group(s) of a match anchored
at the front of its argument, wrapped in `searchFirst m`, which tries every
start position from the left (the `re.search` semantics).  Every pattern
below alternates disjoint character classes with required literals, so
greedy munching without backtracking computes exactly the regex match; the
one exception, `\s*(.+)` on an all-whitespace remainder, is handled
explicitly in `dotPlusAfterWs`. -/

/-- Leftmost-match search: try the matcher at every start position. -/
def searchFirst (m : List Char → Option γ) : List Char → Option γ
  | [] => m []
  | c :: rest =>
    match m (c :: rest) with
    | some g => some g
    | none => searchFirst m rest

/-- Is the character a hexadecimal digit or a colon (class `[0-9a-fA-F:]`)? -/
def isHexColon (c : Char) : Bool :=
  c.isDigit || ('a' ≤ c && c ≤ 'f') || ('A' ≤ c && c ≤ 'F') || c = ':'

/-- Match `TAG\s*\d*\s*:` at the front (the shared prefix of the netsh
`SSID`/`BSSID` patterns), returning the remainder after the colon. -/
def tagColonAt (tag : List Char) (s : List Char) : Option (List Char) := do
  let s1 ← dropLit tag s
  let s2 := (((s1.dropWhile Char.isWhitespace).dropWhile
      Char.isDigit).dropWhile Char.isWhitespace)
  match s2 with
  | ':' :: rest => some rest
  | _ => none

/-- Match `\s*(.+)` against the whole remainder `t` and return group 1.
Greedy `\s*` first eats all leading whitespace; if nothing remains for
`(.+)`, the regex engine backtracks one whitespace character, so an
all-whitespace non-empty `t` still matches with the last character as the
group. -/
def dotPlusAfterWs (t : List Char) : Option (List Char) :=
  if t.isEmpty then none
  else if (t.dropWhile Char.isWhitespace).isEmpty then some (t.drop (t.length - 1))
  else some (t.dropWhile Char.isWhitespace)

/-- Anchored matcher for `SSID\s*\d*\s*:\s*(.+)` (netsh SSID lines). -/
def ssidAt (s : List Char) : Option (List Char) := do
  let rest ← tagColonAt "SSID".data s
  dotPlusAfterWs rest

/-- Anchored matcher for `BSSID\s*\d*\s*:\s*([0-9a-fA-F:]+)` (netsh BSSID
lines). -/
def bssidAt (s : List Char) : Option (List Char) := do
  let rest ← tagColonAt "BSSID".data s
  let rest := rest.dropWhile Char.isWhitespace
  let g := rest.takeWhile isHexColon
  if g.isEmpty then none else some g

/-- Anchored matcher for `:\s*(\d+)%` (netsh signal lines). -/
def pctAt (s : List Char) : Option Nat :=
  match s with
  | ':' :: rest =>
    let rest := rest.dropWhile Char.isWhitespace
    let g := rest.takeWhile Char.isDigit
    if g.isEmpty then none
    else
      match rest.drop g.length with
      | '%' :: _ => some (digitsToNat g)
      | _ => none
  | _ => none

/-- Anchored matcher for `:\s*(\d+)` (netsh channel lines). -/
def intAfterColonAt (s : List Char) : Option Nat :=
  match s with
  | ':' :: rest =>
    let rest := rest.dropWhile Char.isWhitespace
    let g := rest.takeWhile Char.isDigit
    if g.isEmpty then none else some (digitsToNat g)
  | _ => none

/-- Anchored matcher for `Address:\s*([0-9A-Fa-f:]+)` (iwlist Cell lines). -/
def addressAt (s : List Char) : Option (List Char) := do
  let rest ← dropLit "Address:".data s
  let rest := rest.dropWhile Char.isWhitespace
  let g := rest.takeWhile isHexColon
  if g.isEmpty then none else some g

/-- Anchored matcher for `Channel:(\d+)` (iwlist channel lines). -/
def channelNumAt (s : List Char) : Option Nat := do
  let rest ← dropLit "Channel:".data s
  let g := rest.takeWhile Char.isDigit
  if g.isEmpty then none else some (digitsToNat g)

/-- Skip the optional `[=:]?` after `Signal level`; taking the character
when present is the only parse that can succeed, since `=`/`:` belong to
none of the classes that follow. -/
def optEqColon : List Char → List Char
  | '=' :: rest => rest
  | ':' :: rest => rest
  | s => s

/-- Anchored matcher for `Signal level[=:]?\s*(-?\d+)\s*dBm` (iwlist dBm
signal lines), returning the signed value of group 1. -/
def sigDbmAt (s : List Char) : Option Int := do
  let rest ← dropLit "Signal level".data s
  let rest := (optEqColon rest).dropWhile Char.isWhitespace
  let (neg, rest) :=
    match rest with
    | '-' :: r => (true, r)
    | r => (false, r)
  let g := rest.takeWhile Char.isDigit
  if g.isEmpty then none
  else
    let rest2 := (rest.drop g.length).dropWhile Char.isWhitespace
    if isPrefixL "dBm".data rest2 then
      some (if neg then -(digitsToNat g : Int) else (digitsToNat g : Int))
    else none

/-- Anchored matcher for `Signal level[=:]?\s*(\d+)/(\d+)` (iwlist ratio
signal lines), returning both groups. -/
def sigRatioAt (s : List Char) : Option (Nat × Nat) := do
  let rest ← dropLit "Signal level".data s
  let rest := (optEqColon rest).dropWhile Char.isWhitespace
  let g1 := rest.takeWhile Char.isDigit
  if g1.isEmpty then none
  else
    match rest.drop g1.length with
    | '/' :: rest2 =>
      let g2 := rest2.takeWhile Char.isDigit
      if g2.isEmpty then none else some (digitsToNat g1, digitsToNat g2)
    | _ => none

/-- Anchored matcher for `ESSID:"([^"]*)"` (iwlist ESSID lines). -/
def essidAt (s : List Char) : Option (List Char) := do
  let rest ← dropLit "ESSID:\"".data s
  let g := rest.takeWhile (fun c => c ≠ '"')
  match rest.drop g.length with
  | '"' :: _ => some g
  | _ => none

/-! ## Shared accumulator state of the two multi-line parsers -/

/-- Result list plus the "current record" accumulator threaded through the
line loop of the netsh and iwlist parsers. -/
structure ScanAcc where
  networks : List Network := []
  cur : Network := {}
deriving Repr, DecidableEq

/-! ## Windows netsh parser (`wifi_scanner_windows.py` lines 18-79) -/

namespace Windows

/-- Process one netsh output line (the body of the `for line in ...` loop,
`wifi_scanner_windows.py` lines 40-73). -/
def step (st : ScanAcc) (rawLine : String) : ScanAcc :=
  let line := pyStrip rawLine.data
  if isPrefixL "SSID".data line && !containsL line "BSSID".data then
    let st1 :=
      if truthyStr st.cur.bssid then ScanAcc.mk (st.networks ++ [st.cur]) {} else st
    match searchFirst ssidAt line with
    | some g => ⟨st1.networks, { st1.cur with ssid := some (strOf (pyStrip g)) }⟩
    | none => st1
  else if containsL line "BSSID".data then
    match searchFirst bssidAt line with
    | some g =>
      let nets :=
        if truthyStr st.cur.bssid then st.networks ++ [st.cur] else st.networks
      ⟨nets, { st.cur with bssid := some (strOf (pyLower g)) }⟩
    | none => st
  else if containsL line "Signal".data || containsL line "Intensit".data then
    match searchFirst pctAt line with
    | some n => ⟨st.networks, { st.cur with signal := some (n : Int) }⟩
    | none => st
  else if containsL line "Channel".data || containsL line "Canal".data then
    match searchFirst intAfterColonAt line with
    | some n => ⟨st.networks, { st.cur with channel := some (n : Int) }⟩
    | none => st
  else st

/-- Fold the line loop from the empty state. -/
def run (lines : List String) : ScanAcc := lines.foldl step {}

/-- The netsh scanner over the list of stdout lines, with the final
"don't forget the last network" flush. -/
def get_wifi_bssids (lines : List String) : List Network :=
  let st := run lines
  st.networks ++ (if truthyStr st.cur.bssid then [st.cur] else [])

end Windows

example :
    Windows.get_wifi_bssids
      ["SSID 1 : MyNet", "    BSSID 1                 : aa:bb:cc:dd:ee:01",
       "    BSSID 2                 : aa:bb:cc:dd:ee:02"] =
      [{ ssid := some "MyNet", bssid := some "aa:bb:cc:dd:ee:01" },
       { ssid := some "MyNet", bssid := some "aa:bb:cc:dd:ee:02" }] := by decide

example :
    Windows.get_wifi_bssids
      ["SSID 1 : MyNet", "    BSSID 1 : aa:bb:cc:dd:ee:01",
       "         Signal             : 75%", "         Channel            : 11"] =
      [{ ssid := some "MyNet", bssid := some "aa:bb:cc:dd:ee:01",
         signal := some 75, channel := some 11 }] := by decide

/-! ## Embedded JSON values and Python-level failures -/

/-- A decoded JSON value (the possible results of `json.loads`).  Numbers
are modeled as integers: every numeric field the Termux tool emits
(`rssi`, `frequency_mhz`) is integral. -/
inductive JValue where
  | null
  | bool (b : Bool)
  | num (n : Int)
  | str (s : String)
  | arr (elems : List JValue)
  | obj (fields : List (String × JValue))

/-- The exceptions the embedded code can raise.  `termuxApiError` is the
distinguished `RuntimeError(f"Termux API error: {...}")` carrying the value
under the `error` key; `jsonDecodeError` is the `RuntimeError` wrapping a
`json.JSONDecodeError`; the others model Python's dynamic-type failures. -/
inductive PyErr where
  | termuxApiError (payload : JValue)
  | jsonDecodeError (msg : String)
  | attrError
  | typeError
  | zeroDivError

/-- First binding of a key in a decoded JSON object (objects decoded by
`json.loads` have distinct keys, so first = only). -/
def jLookup (kvs : List (String × JValue)) (k : String) : Option JValue :=
  match kvs with
  | [] => none
  | (k', v) :: rest => if k' = k then some v else jLookup rest k

/-- Python truthiness of a JSON value. -/
def jTruthy : JValue → Bool
  | .null => false
  | .bool b => b
  | .num n => n ≠ 0
  | .str s => !s.isEmpty
  | .arr l => !l.isEmpty
  | .obj l => !l.isEmpty

/-- Python `str()` of a JSON value, as used by the f-string interpolation;
container renderings are abbreviated (no claim depends on them). -/
def jToStr : JValue → String
  | .str s => s
  | .num n => toString n
  | .bool b => if b then "True" else "False"
  | .null => "None"
  | .arr _ => "<list>"
  | .obj _ => "<dict>"

/-! ## Linux iwlist parser (`wifi_scanner_linux.py` lines 66-120)

The ratio branch divides by a scanned integer, so a line such as
`Signal level=5/0` raises `ZeroDivisionError`; the step function therefore
returns `Except PyErr`. -/

/-- Process one iwlist output line (the body of the `for line in ...` loop,
`wifi_scanner_linux.py` lines 86-115). -/
def iwStep (st : ScanAcc) (rawLine : String) : Except PyErr ScanAcc :=
  let line := pyStrip rawLine.data
  if isPrefixL "Cell".data line then
    let nets :=
      if truthyStr st.cur.bssid then st.networks ++ [st.cur] else st.networks
    match searchFirst addressAt line with
    | some g => .ok ⟨nets, { bssid := some (strOf (pyLower g)) }⟩
    | none => .ok ⟨nets, {}⟩
  else if containsL line "Channel:".data then
    match searchFirst channelNumAt line with
    | some n => .ok ⟨st.networks, { st.cur with channel := some (n : Int) }⟩
    | none => .ok st
  else if containsL line "Signal level".data then
    match searchFirst sigDbmAt line with
    | some dbm =>
      .ok ⟨st.networks, { st.cur with signal := some (iwDbmSignal dbm) }⟩
    | none =>
      match searchFirst sigRatioAt line with
      | some (a, b) =>
        if b = 0 then .error .zeroDivError
        else .ok ⟨st.networks, { st.cur with signal := some (ratioSignal a b) }⟩
      | none => .ok st
  else if containsL line "ESSID:".data then
    match searchFirst essidAt line with
    | some g =>
      .ok ⟨st.networks,
        { st.cur with ssid := some (if g.isEmpty then "<Hidden>" else strOf g) }⟩
    | none => .ok st
  else .ok st

/-- Fold the iwlist line loop, propagating the first exception. -/
def iwRun (st : ScanAcc) : List String → Except PyErr ScanAcc
  | [] => .ok st
  | l :: ls =>
    match iwStep st l with
    | .error e => .error e
    | .ok st' => iwRun st' ls

/-- The iwlist scanner over the list of stdout lines, with the final
flush of a current record that has a BSSID. -/
def get_wifi_bssids_iwlist (lines : List String) : Except PyErr (List Network) :=
  match iwRun {} lines with
  | .error e => .error e
  | .ok st => .ok (st.networks ++ (if truthyStr st.cur.bssid then [st.cur] else []))

example :
    get_wifi_bssids_iwlist
      ["Cell 01 - Address: AA:BB:CC:DD:EE:01",
       "Channel:6",
       "Signal level=-60 dBm",
       "ESSID:\"HomeNet\"",
       "Cell 02 - Address: AA:BB:CC:DD:EE:02",
       "Signal level=70/100"] =
      .ok [{ ssid := some "HomeNet", bssid := some "aa:bb:cc:dd:ee:01",
             signal := some 80, channel := some 6 },
           { bssid := some "aa:bb:cc:dd:ee:02", signal := some 70 }] := by rfl

/-! ## Termux JSON parser (`wifi_scanner_termux.py` lines 88-139) -/

namespace Termux

/-- Build the `bssid` field: `ap.get('bssid', '').lower()`.  A present
non-string value has no `.lower` attribute. -/
def bssidField : Option JValue → Except PyErr String
  | some (.str s) => .ok (strOf (pyLower s.data))
  | none => .ok ""
  | some _ => .error .attrError

/-- Numeric value of `ap.get('rssi', -100)` as fed to `dbm_to_percent`;
Python booleans are integers, any other present non-number fails the
`>=` comparison inside `dbm_to_percent` with a `TypeError`. -/
def rssiField : Option JValue → Except PyErr Int
  | some (.num n) => .ok n
  | some (.bool b) => .ok (if b then 1 else 0)
  | none => .ok (-100)
  | some _ => .error .typeError

/-- Numeric value of `ap.get('frequency_mhz', 0)` as fed to
`freq_to_channel`. -/
def freqField : Option JValue → Except PyErr Int
  | some (.num n) => .ok n
  | some (.bool b) => .ok (if b then 1 else 0)
  | none => .ok 0
  | some _ => .error .typeError

/-- Raw numeric carry-through for the `rssi_dbm`/`frequency_mhz` extras
(`ap.get(...)` stored unmodified; absent or `null` becomes `none`). -/
def optNum : Option JValue → Option Int
  | some (.num n) => some n
  | some (.bool b) => some (if b then 1 else 0)
  | _ => none

/-- Build one record from one element of the scan list
(`wifi_scanner_termux.py` lines 122-129).  Non-dict elements fail at
`ap.get` with `AttributeError`.  The dict-literal fields are evaluated in
source order, so a bad `bssid` raises before a bad `rssi`, which raises
before a bad `frequency_mhz`.  A truthy non-string `ssid` value is carried
through by Python unchanged; it is stored here via its string rendering
since the record field is typed. -/
def record (ap : JValue) : Except PyErr Network :=
  match ap with
  | .obj kvs =>
    let ssidVal := (jLookup kvs "ssid").getD (.str "")
    match bssidField (jLookup kvs "bssid") with
    | .error e => .error e
    | .ok bssid =>
      match rssiField (jLookup kvs "rssi") with
      | .error e => .error e
      | .ok rssi =>
        match freqField (jLookup kvs "frequency_mhz") with
        | .error e => .error e
        | .ok freq =>
          .ok { ssid := some (if jTruthy ssidVal then jToStr ssidVal else "<Hidden>")
                bssid := some bssid
                signal := some (dbm_to_percent rssi)
                rssi_dbm := optNum (jLookup kvs "rssi")
                channel := freq_to_channel freq
                frequency_mhz := optNum (jLookup kvs "frequency_mhz") }
  | _ => .error .attrError

/-- Python `for ap in ...: networks.append(build(ap))`: left-to-right, the
first exception aborts the whole loop. -/
def buildAll (f : JValue → Except PyErr Network) : List JValue → Except PyErr (List Network)
  | [] => .ok []
  | x :: xs =>
    match f x with
    | .error e => .error e
    | .ok y =>
      match buildAll f xs with
      | .error e => .error e
      | .ok ys => .ok (y :: ys)

/-- Process the decoded top-level JSON value (`wifi_scanner_termux.py`
lines 114-132): a dict with an `error` key raises the distinguished
`RuntimeError`; any other dict is iterated over its keys and a string is
iterated over its one-character strings (both per Python iteration), whose
elements then fail at `ap.get`; non-iterables raise `TypeError`. -/
def fromJson (j : JValue) : Except PyErr (List Network) :=
  match j with
  | .obj kvs =>
    match jLookup kvs "error" with
    | some v => .error (.termuxApiError v)
    | none => buildAll record (kvs.map (fun kv => JValue.str kv.1))
  | .arr xs => buildAll record xs
  | .str s => buildAll record (s.data.map (fun c => JValue.str (strOf [c])))
  | _ => .error .typeError

/-- The Termux scanner over the result of `json.loads result.stdout`:
a decode failure (e.g. empty stdout) is re-raised as a `RuntimeError`
(`wifi_scanner_termux.py` lines 136-137). -/
def get_wifi_bssids (decoded : Except String JValue) : Except PyErr (List Network) :=
  match decoded with
  | .error e => .error (.jsonDecodeError e)
  | .ok j => fromJson j

end Termux

example :
    Termux.get_wifi_bssids (.ok (.arr
      [.obj [("ssid", .str "HomeNet"), ("bssid", .str "AA:BB:CC:DD:EE:01"),
             ("rssi", .num (-55)), ("frequency_mhz", .num 2437)]])) =
      .ok [{ ssid := some "HomeNet", bssid := some "aa:bb:cc:dd:ee:01",
             signal := some 58, rssi_dbm := some (-55),
             channel := some 6, frequency_mhz := some 2437 }] := by rfl

example :
    Termux.get_wifi_bssids (.ok (.obj [("error", .str "permission denied")])) =
      .error (.termuxApiError (.str "permission denied")) := by rfl

example : Termux.get_wifi_bssids (.ok (.obj [])) = .ok [] := by rfl

/-! ## Presenter (`print_networks`, identical in `wifi_scanner_linux.py`
lines 146-170 and `wifi_scanner_windows.py` lines 82-106) -/

/-- Sort key of the in-place sort: `x.get('signal') or 0` (an absent or
`None` signal counts as 0; a present 0 is falsy but yields 0 as well). -/
def sortKey (n : Network) : Int := n.signal.getD 0

/-- The descending-by-signal order the presenter sorts by; as a
non-strict relation ties are kept in input order, matching the stability
of Python's `list.sort(..., reverse=True)`. -/
def byDescSignal (a b : Network) : Prop := sortKey b ≤ sortKey a

instance : DecidableRel byDescSignal := fun _ _ => Int.decLe _ _

instance : IsTotal Network byDescSignal := ⟨fun a b => le_total (sortKey b) (sortKey a)⟩

instance : IsTrans Network byDescSignal := ⟨fun _ _ _ hab hbc => le_trans hbc hab⟩

/-- The list-reordering effect of `print_networks`: on an empty list the
function returns before sorting; otherwise `networks.sort(key=...,
reverse=True)` leaves `networks` stably sorted by descending signal.  The
value returned here is the content of the caller's list after the call. -/
def print_networks (networks : List Network) : List Network :=
  if networks.isEmpty then networks
  else List.insertionSort byDescSignal networks

/-! ## Generic helper lemmas -/

/-- A predicate preserved by each step of a fold is preserved by the
whole fold. -/
theorem foldl_preserves {σ α : Type} {P : σ → Prop} {f : σ → α → σ}
    (hf : ∀ s a, P s → P (f s a)) :
    ∀ (l : List α) (s : σ), P s → P (l.foldl f s) := by
  intro l
  induction l with
  | nil => intro s hs; simpa using hs
  | cons x xs ih =>
    intro s hs
    simpa using ih (f s x) (hf s x hs)

/-- A predicate preserved by each successful `iwStep` holds after a
successful `iwRun`. -/
theorem iwRun_preserves {P : ScanAcc → Prop}
    (hf : ∀ st l st', iwStep st l = .ok st' → P st → P st') :
    ∀ (lines : List String) (st st' : ScanAcc),
      iwRun st lines = .ok st' → P st → P st' := by
  intro lines
  induction lines with
  | nil =>
    intro st st' h hst
    simp only [iwRun] at h
    cases h
    exact hst
  | cons l ls ih =>
    intro st st' h hst
    simp only [iwRun] at h
    cases hstep : iwStep st l with
    | error e => rw [hstep] at h; cases h
    | ok st1 =>
      rw [hstep] at h
      exact ih st1 st' h (hf st l st1 hstep hst)

/-- Every element of a successful `Termux.buildAll` output comes from a
successful `f` on some input element. -/
theorem buildAll_mem {f : JValue → Except PyErr Network} :
    ∀ {xs : List JValue} {ys : List Network},
      Termux.buildAll f xs = .ok ys → ∀ y ∈ ys, ∃ x ∈ xs, f x = .ok y := by
  intro xs
  induction xs with
  | nil =>
    intro ys h y hy
    simp only [Termux.buildAll] at h
    cases h
    simp at hy
  | cons x xs ih =>
    intro ys h y hy
    simp only [Termux.buildAll] at h
    cases hfx : f x with
    | error e => rw [hfx] at h; cases h
    | ok z =>
      rw [hfx] at h
      cases hrest : Termux.buildAll f xs with
      | error e => rw [hrest] at h; cases h
      | ok zs =>
        rw [hrest] at h
        cases h
        rcases List.mem_cons.mp hy with hy | hy
        · exact ⟨x, List.mem_cons_self x xs, hy ▸ hfx⟩
        · obtain ⟨x', hx', hfx'⟩ := ih hrest y hy
          exact ⟨x', List.mem_cons_of_mem x hx', hfx'⟩

/-- The dBm-to-percent conversion always lands in `[0, 100]`. -/
theorem dbm_to_percent_range (r : Int) :
    0 ≤ dbm_to_percent r ∧ dbm_to_percent r ≤ 100 := by
  unfold dbm_to_percent
  split_ifs <;> omega

/-- Every successfully built Termux record carries
`signal = some (dbm_to_percent rssi)` for some rssi value. -/
theorem termux_record_signal {ap : JValue} {r : Network}
    (h : Termux.record ap = .ok r) : ∃ n : Int, r.signal = some (dbm_to_percent n) := by
  cases ap with
  | obj kvs =>
    simp only [Termux.record] at h
    cases hb : Termux.bssidField (jLookup kvs "bssid") with
    | error e => rw [hb] at h; cases h
    | ok b =>
      rw [hb] at h
      cases hr : Termux.rssiField (jLookup kvs "rssi") with
      | error e => rw [hr] at h; cases h
      | ok n =>
        rw [hr] at h
        cases hf : Termux.freqField (jLookup kvs "frequency_mhz") with
        | error e => rw [hf] at h; cases h
        | ok f =>
          rw [hf] at h
          cases h
          exact ⟨n, rfl⟩
  | null => simp only [Termux.record] at h; cases h
  | bool b => simp only [Termux.record] at h; cases h
  | num n => simp only [Termux.record] at h; cases h
  | str s => simp only [Termux.record] at h; cases h
  | arr l => simp only [Termux.record] at h; cases h

/-! ## Claims -/

/-- C3: `dbm_to_percent` maps any rssi at or above -30 dBm to 100 and any
at or below -90 dBm to 0; strictly between, it equals
`100 * (rssi + 90) / 60` truncated to an integer and is monotonically
(indeed strictly) increasing; its value always lies in `[0, 100]`; and
`dbm_to_percent (-60) = 50`. -/
theorem dbm_to_percent_contract :
    (∀ r : Int, -30 ≤ r → dbm_to_percent r = 100)
    ∧ (∀ r : Int, r ≤ -90 → dbm_to_percent r = 0)
    ∧ (∀ r : Int, -90 < r → r < -30 → dbm_to_percent r = 100 * (r + 90) / 60)
    ∧ (∀ r s : Int, -90 < r → r < s → s < -30 → dbm_to_percent r < dbm_to_percent s)
    ∧ (∀ r : Int, 0 ≤ dbm_to_percent r ∧ dbm_to_percent r ≤ 100)
    ∧ dbm_to_percent (-60) = 50 := by
  refine ⟨?_, ?_, ?_, ?_, dbm_to_percent_range, by decide⟩
  · intro r h; unfold dbm_to_percent; split_ifs <;> omega
  · intro r h; unfold dbm_to_percent; split_ifs <;> omega
  · intro r h1 h2; unfold dbm_to_percent; split_ifs <;> omega
  · intro r s h1 h2 h3; unfold dbm_to_percent; split_ifs <;> omega

/-- Witness for `dbm_to_percent_contract`: its clauses applied at concrete
inputs, discharging each hypothesis. -/
theorem dbm_to_percent_contract_witness :
    dbm_to_percent (-20) = 100 ∧ dbm_to_percent (-95) = 0
    ∧ dbm_to_percent (-89) = 100 * (-89 + 90) / 60
    ∧ dbm_to_percent (-89) < dbm_to_percent (-31) :=
  ⟨dbm_to_percent_contract.1 (-20) (by decide),
   dbm_to_percent_contract.2.1 (-95) (by decide),
   dbm_to_percent_contract.2.2.1 (-89) (by decide) (by decide),
   dbm_to_percent_contract.2.2.2.1 (-89) (-31) (by decide) (by decide) (by decide)⟩

/-- C4: `freq_to_channel` maps 2412..2484 MHz to channels 1..14 (with the
2484 special case), 5170..5825 MHz to `(f-5170)/5 + 34`, 5955..7115 MHz to
`(f-5955)/5 + 1`, and every other frequency to `none` — it is total, never
an error; with the particular values the spec lists. -/
theorem freq_to_channel_contract :
    (∀ f : Int, 2412 ≤ f → f ≤ 2484 →
        freq_to_channel f = some (if f = 2484 then 14 else (f - 2412) / 5 + 1))
    ∧ (∀ f : Int, 5170 ≤ f → f ≤ 5825 → freq_to_channel f = some ((f - 5170) / 5 + 34))
    ∧ (∀ f : Int, 5955 ≤ f → f ≤ 7115 → freq_to_channel f = some ((f - 5955) / 5 + 1))
    ∧ (∀ f : Int, ¬(2412 ≤ f ∧ f ≤ 2484) → ¬(5170 ≤ f ∧ f ≤ 5825) →
        ¬(5955 ≤ f ∧ f ≤ 7115) → freq_to_channel f = none)
    ∧ freq_to_channel 2412 = some 1 ∧ freq_to_channel 2484 = some 14
    ∧ freq_to_channel 2485 = none ∧ freq_to_channel 5180 = some 36
    ∧ freq_to_channel 5955 = some 1 ∧ freq_to_channel 3000 = none := by
  refine ⟨?_, ?_, ?_, ?_, by decide, by decide, by decide, by decide, by decide, by decide⟩
  · intro f h1 h2
    unfold freq_to_channel
    split_ifs with ha hb <;> simp_all
  · intro f h1 h2
    unfold freq_to_channel
    split_ifs <;> first | rfl | omega
  · intro f h1 h2
    unfold freq_to_channel
    split_ifs <;> first | rfl | omega
  · intro f h1 h2 h3
    unfold freq_to_channel
    split_ifs <;> first | rfl | omega

/-- Witness for `freq_to_channel_contract`: its clauses applied at concrete
frequencies, discharging each hypothesis. -/
theorem freq_to_channel_contract_witness :
    freq_to_channel 2437 = some (if (2437 : Int) = 2484 then 14 else (2437 - 2412) / 5 + 1)
    ∧ freq_to_channel 5180 = some ((5180 - 5170) / 5 + 34)
    ∧ freq_to_channel 5955 = some ((5955 - 5955) / 5 + 1)
    ∧ freq_to_channel 3000 = none :=
  ⟨freq_to_channel_contract.1 2437 (by decide) (by decide),
   freq_to_channel_contract.2.1 5180 (by decide) (by decide),
   freq_to_channel_contract.2.2.1 5955 (by decide) (by decide),
   freq_to_channel_contract.2.2.2.1 3000 (by decide) (by decide) (by decide)⟩

/-- C2 counterexample: the Linux iwlist parser's dBm conversion and the
Termux `dbm_to_percent` disagree at -60 dBm (80 versus 50), so the two
parsers do not implement the conversion identically. -/
theorem iwlist_vs_termux_dbm_differ :
    iwDbmSignal (-60) = 80 ∧ dbm_to_percent (-60) = 50
    ∧ iwDbmSignal (-60) ≠ dbm_to_percent (-60) := by decide

/-- C2 as amended: the iwlist conversion `max(0, min(100, 2*(dbm+100)))`
agrees with `dbm_to_percent` exactly when the rssi is at least -30 dBm
(both clamp to 100) or at most -100 dBm (both clamp to 0), and differs
everywhere strictly between. -/
theorem iwlist_vs_termux_dbm_agree_iff (d : Int) :
    iwDbmSignal d = dbm_to_percent d ↔ (-30 ≤ d ∨ d ≤ -100) := by
  unfold iwDbmSignal dbm_to_percent
  split_ifs <;> omega

/-- Witness for `iwlist_vs_termux_dbm_agree_iff` at concrete inputs on both
sides of the equivalence. -/
theorem iwlist_vs_termux_dbm_agree_iff_witness :
    iwDbmSignal (-20) = dbm_to_percent (-20) ∧ ¬ iwDbmSignal (-60) = dbm_to_percent (-60) :=
  ⟨(iwlist_vs_termux_dbm_agree_iff (-20)).mpr (Or.inl (by decide)),
   fun h => by
    rcases (iwlist_vs_termux_dbm_agree_iff (-60)).mp h with h' | h' <;> omega⟩

/-- C1 counterexample: `print_networks` does not leave its argument list
unchanged — the in-place `networks.sort(key=..., reverse=True)` reorders
the caller's list whenever it is not already sorted by descending
signal. -/
theorem print_networks_mutates_order :
    print_networks [{ signal := some 10 }, { signal := some 90 }] =
      [{ signal := some 90 }, { signal := some 10 }]
    ∧ print_networks [{ signal := some 10 }, { signal := some 90 }] ≠
      [({ signal := some 10 } : Network), { signal := some 90 }] := by decide

/-- C1 as amended: `print_networks` sorts the caller's list in place, so
after the call the list is a permutation of the records passed in, stably
ordered by descending signal (absent signal counting as 0); it is not left
in its original order in general.  (In the program the published
`ScanResult` is never passed through `print_networks`: the publish loop
sorts a separate `sorted(...)` copy for its summary.) -/
theorem print_networks_perm_sorted (networks : List Network) :
    List.Perm (print_networks networks) networks
    ∧ List.Pairwise byDescSignal (print_networks networks) := by
  unfold print_networks
  split_ifs with h
  · exact ⟨List.Perm.refl _, by simp [List.isEmpty_iff.mp h]⟩
  · exact ⟨List.perm_insertionSort byDescSignal networks,
      List.sorted_insertionSort byDescSignal networks⟩

/-- C10: empty tool output yields an empty ScanResult and not a failure,
for all parsers: no stdout lines for the three text tools, and the empty
JSON array for the Termux tool (an empty scan in its format; a zero-byte
stdout is an unparseable top-level structure, which the spec classifies
separately as a scan failure). -/
theorem empty_output_empty_scan :
    get_wifi_bssids_nmcli [] = []
    ∧ Windows.get_wifi_bssids [] = []
    ∧ get_wifi_bssids_iwlist [] = .ok []
    ∧ Termux.get_wifi_bssids (.ok (.arr [])) = .ok [] :=
  ⟨rfl, rfl, rfl, rfl⟩

/-- Every record appended by one netsh parser step has a truthy (present,
non-empty) bssid, because every append is guarded by
`current_network.get('bssid')`. -/
theorem winStep_preserves (st : ScanAcc) (line : String)
    (hP : ∀ x ∈ st.networks, truthyStr x.bssid = true) :
    ∀ x ∈ (Windows.step st line).networks, truthyStr x.bssid = true := by
  have hflush : truthyStr st.cur.bssid = true →
      ∀ x ∈ st.networks ++ [st.cur], truthyStr x.bssid = true := by
    intro h x hx
    rcases List.mem_append.mp hx with hx | hx
    · exact hP x hx
    · rcases List.mem_singleton.mp hx with rfl
      exact h
  unfold Windows.step
  dsimp only
  split_ifs
  all_goals (try split)
  all_goals (try dsimp only)
  all_goals intro x hx
  all_goals first
    | exact hP x hx
    | exact hflush (by assumption) x hx

/-- Every record appended by one successful iwlist parser step has a
truthy bssid: the `Cell`-line flush is guarded by
`current_network.get('bssid')`. -/
theorem iwStep_preserves (st : ScanAcc) (line : String) (st' : ScanAcc)
    (hstep : iwStep st line = .ok st')
    (hP : ∀ x ∈ st.networks, truthyStr x.bssid = true) :
    ∀ x ∈ st'.networks, truthyStr x.bssid = true := by
  have hflush : truthyStr st.cur.bssid = true →
      ∀ x ∈ st.networks ++ [st.cur], truthyStr x.bssid = true := by
    intro h x hx
    rcases List.mem_append.mp hx with hx | hx
    · exact hP x hx
    · rcases List.mem_singleton.mp hx with rfl
      exact h
  unfold iwStep at hstep
  dsimp only at hstep
  split_ifs at hstep
  all_goals (try split at hstep)
  all_goals (try split at hstep)
  all_goals (try split_ifs at hstep)
  all_goals (cases hstep)
  all_goals intro x hx
  all_goals first
    | exact hP x hx
    | exact hflush (by assumption) x hx

/-- C9 counterexample: the nmcli terse parser emits a record even when the
BSSID field is empty (unresolvable) — the line `:::` yields a record with
`bssid = ""` instead of being dropped. -/
theorem nmcli_empty_bssid_emitted :
    get_wifi_bssids_nmcli [":::"] =
      [{ ssid := some "<Hidden>", bssid := some "", signal := none, channel := none }]
    ∧ truthyStr (some "") = false := by decide

/-- C9 as amended: the two multi-line cell-block parsers (netsh and
iwlist) append a record only once its bssid is known and non-empty, and
drop an accumulator with no resolvable BSSID; the terse (nmcli) and JSON
(Termux) parsers do not enforce this — they emit records with an empty
bssid (see the counterexample). -/
theorem multiline_bssid_nonempty :
    (∀ (lines : List String) (r : Network),
        r ∈ Windows.get_wifi_bssids lines → truthyStr r.bssid = true)
    ∧ (∀ (lines : List String) (res : List Network) (r : Network),
        get_wifi_bssids_iwlist lines = .ok res → r ∈ res → truthyStr r.bssid = true) := by
  constructor
  · intro lines r hr
    unfold Windows.get_wifi_bssids at hr
    dsimp only at hr
    have hrun : ∀ x ∈ (Windows.run lines).networks, truthyStr x.bssid = true := by
      unfold Windows.run
      exact foldl_preserves (fun s a hs => winStep_preserves s a hs) lines {}
        (by intro x hx; simp at hx)
    rcases List.mem_append.mp hr with hr | hr
    · exact hrun r hr
    · split_ifs at hr with h
      · rcases List.mem_singleton.mp hr with rfl
        exact h
      · simp at hr
  · intro lines res r hres hr
    unfold get_wifi_bssids_iwlist at hres
    cases hrun : iwRun {} lines with
    | error e => rw [hrun] at hres; cases hres
    | ok st =>
      rw [hrun] at hres
      cases hres
      have hst : ∀ x ∈ st.networks, truthyStr x.bssid = true :=
        iwRun_preserves (fun a l b hab hpa => iwStep_preserves a l b hab hpa) lines {} st hrun
          (by intro x hx; simp at hx)
      rcases List.mem_append.mp hr with hr | hr
      · exact hst r hr
      · split_ifs at hr with h
        · rcases List.mem_singleton.mp hr with rfl
          exact h
        · simp at hr

/-- Witness for `multiline_bssid_nonempty` at a concrete scan. -/
theorem multiline_bssid_nonempty_witness :
    truthyStr (Network.bssid { ssid := some "MyNet", bssid := some "aa:bb:cc:dd:ee:01" }) = true :=
  multiline_bssid_nonempty.1 ["SSID 1 : MyNet", "BSSID 1 : aa:bb:cc:dd:ee:01"]
    { ssid := some "MyNet", bssid := some "aa:bb:cc:dd:ee:01" } (by decide)

/-- A record's signal, when present, is nonnegative. -/
def sigNonneg (n : Network) : Prop := ∀ s : Int, n.signal = some s → 0 ≤ s

/-- One netsh parser step keeps every stored signal nonnegative: the only
signal it writes is a regex-captured digit string. -/
theorem winStep_signal (st : ScanAcc) (line : String)
    (hN : ∀ x ∈ st.networks, sigNonneg x) (hC : sigNonneg st.cur) :
    (∀ x ∈ (Windows.step st line).networks, sigNonneg x)
    ∧ sigNonneg (Windows.step st line).cur := by
  have hflush : ∀ x ∈ st.networks ++ [st.cur], sigNonneg x := by
    intro x hx
    rcases List.mem_append.mp hx with hx | hx
    · exact hN x hx
    · rcases List.mem_singleton.mp hx with rfl
      exact hC
  have hz : sigNonneg ({} : Network) := by intro s hs; cases hs
  unfold Windows.step
  dsimp only
  split_ifs
  all_goals (try split)
  all_goals refine ⟨?_, ?_⟩
  all_goals first
    | exact hN
    | exact hflush
    | exact hC
    | exact hz
    | (intro s hs; cases hs; omega)

/-- One successful iwlist parser step keeps every stored signal
nonnegative: the dBm branch clamps below at 0 and the ratio branch divides
nonnegative integers. -/
theorem iwStep_signal (st : ScanAcc) (line : String) (st' : ScanAcc)
    (hstep : iwStep st line = .ok st')
    (hN : ∀ x ∈ st.networks, sigNonneg x) (hC : sigNonneg st.cur) :
    (∀ x ∈ st'.networks, sigNonneg x) ∧ sigNonneg st'.cur := by
  have hflush : ∀ x ∈ st.networks ++ [st.cur], sigNonneg x := by
    intro x hx
    rcases List.mem_append.mp hx with hx | hx
    · exact hN x hx
    · rcases List.mem_singleton.mp hx with rfl
      exact hC
  have hz : sigNonneg ({} : Network) := by intro s hs; cases hs
  unfold iwStep at hstep
  dsimp only at hstep
  split_ifs at hstep
  all_goals (try split at hstep)
  all_goals (try split at hstep)
  all_goals (try split_ifs at hstep)
  all_goals (cases hstep)
  all_goals refine ⟨?_, ?_⟩
  all_goals first
    | exact hN
    | exact hflush
    | exact hC
    | exact hz
    | (intro s hs; cases hs; unfold iwDbmSignal; omega)
    | (intro s hs; cases hs; exact Int.ediv_nonneg (by positivity) (by positivity))

/-- Every record of a successful Termux scan was built by `Termux.record`
on some element of the iterated top-level value. -/
theorem termux_output_record {dec : Except String JValue} {res : List Network}
    (hok : Termux.get_wifi_bssids dec = .ok res) :
    ∀ r ∈ res, ∃ ap, Termux.record ap = .ok r := by
  intro r hr
  cases dec with
  | error e => cases hok
  | ok j =>
    unfold Termux.get_wifi_bssids at hok
    dsimp only at hok
    cases j with
    | obj kvs =>
      unfold Termux.fromJson at hok
      dsimp only at hok
      cases hl : jLookup kvs "error" with
      | some v => rw [hl] at hok; cases hok
      | none =>
        rw [hl] at hok
        obtain ⟨x, _, hx⟩ := buildAll_mem hok r hr
        exact ⟨x, hx⟩
    | arr xs =>
      obtain ⟨x, _, hx⟩ := buildAll_mem hok r hr
      exact ⟨x, hx⟩
    | str s =>
      obtain ⟨x, _, hx⟩ := buildAll_mem hok r hr
      exact ⟨x, hx⟩
    | null => cases hok
    | bool b => cases hok
    | num n => cases hok

/-- C8 counterexample: the nmcli terse parser performs no clamping — a
tool-reported signal field of `120` is carried into the record as 120,
outside `[0, 100]`. -/
theorem nmcli_signal_unclamped :
    get_wifi_bssids_nmcli ["Net:aa:120:1"] =
      [{ ssid := some "Net", bssid := some "aa", signal := some 120, channel := some 1 }]
    ∧ ¬ ((120 : Int) ≤ 100) := by decide

/-- C8 as amended: signals produced by the JSON (Termux) parser always lie
in `[0, 100]`, as does the iwlist dBm conversion; the percent-string paths
(nmcli, netsh) and the iwlist ratio path only guarantee nonnegativity —
they emit the parsed integer without an upper clamp, so a tool value above
100 is preserved (see the counterexample). -/
theorem signal_range_contract :
    (∀ (dec : Except String JValue) (res : List Network) (r : Network),
        Termux.get_wifi_bssids dec = .ok res → r ∈ res →
        ∃ s, r.signal = some s ∧ 0 ≤ s ∧ s ≤ 100)
    ∧ (∀ d : Int, 0 ≤ iwDbmSignal d ∧ iwDbmSignal d ≤ 100)
    ∧ (∀ (lines : List String) (r : Network) (s : Int),
        r ∈ get_wifi_bssids_nmcli lines → r.signal = some s → 0 ≤ s)
    ∧ (∀ (lines : List String) (r : Network) (s : Int),
        r ∈ Windows.get_wifi_bssids lines → r.signal = some s → 0 ≤ s)
    ∧ (∀ (lines : List String) (res : List Network) (r : Network) (s : Int),
        get_wifi_bssids_iwlist lines = .ok res → r ∈ res → r.signal = some s → 0 ≤ s) := by
  refine ⟨?_, ?_, ?_, ?_, ?_⟩
  · intro dec res r hok hr
    obtain ⟨ap, hap⟩ := termux_output_record hok r hr
    obtain ⟨n, hn⟩ := termux_record_signal hap
    exact ⟨dbm_to_percent n, hn, dbm_to_percent_range n⟩
  · intro d
    unfold iwDbmSignal
    omega
  · intro lines r s hr hs
    unfold get_wifi_bssids_nmcli at hr
    obtain ⟨line, _, hline⟩ := List.mem_filterMap.mp hr
    unfold parse_nmcli_line at hline
    dsimp only at hline
    split_ifs at hline
    all_goals (cases hline)
    all_goals simp_all
    all_goals omega
  · intro lines r s hr hs
    unfold Windows.get_wifi_bssids at hr
    dsimp only at hr
    have hinv : (∀ x ∈ (Windows.run lines).networks, sigNonneg x)
        ∧ sigNonneg (Windows.run lines).cur := by
      unfold Windows.run
      refine foldl_preserves
        (P := fun st => (∀ x ∈ st.networks, sigNonneg x) ∧ sigNonneg st.cur)
        (fun st a hp => winStep_signal st a hp.1 hp.2) lines {} ?_
      exact ⟨by intro x hx; simp at hx, by intro t ht; cases ht⟩
    rcases List.mem_append.mp hr with hr | hr
    · exact hinv.1 r hr s hs
    · split_ifs at hr
      · rcases List.mem_singleton.mp hr with rfl
        exact hinv.2 s hs
      · simp at hr
  · intro lines res r s hres hr hs
    unfold get_wifi_bssids_iwlist at hres
    cases hrun : iwRun {} lines with
    | error e => rw [hrun] at hres; cases hres
    | ok st =>
      rw [hrun] at hres
      cases hres
      have hinv : (∀ x ∈ st.networks, sigNonneg x) ∧ sigNonneg st.cur := by
        refine iwRun_preserves
          (P := fun a => (∀ x ∈ a.networks, sigNonneg x) ∧ sigNonneg a.cur)
          (fun a l b hab hpa => iwStep_signal a l b hab hpa.1 hpa.2) lines {} st hrun ?_
        exact ⟨by intro x hx; simp at hx, by intro t ht; cases ht⟩
      rcases List.mem_append.mp hr with hr | hr
      · exact hinv.1 r hr s hs
      · split_ifs at hr
        · rcases List.mem_singleton.mp hr with rfl
          exact hinv.2 s hs
        · simp at hr

/-- Witness for `signal_range_contract` at concrete scans of all the
parsers involved. -/
theorem signal_range_contract_witness :
    (∃ s,
      ({ ssid := some "HomeNet", bssid := some "aa:bb:cc:dd:ee:01", signal := some 58,
         rssi_dbm := some (-55), channel := some 6,
         frequency_mhz := some 2437 } : Network).signal = some s ∧ 0 ≤ s ∧ s ≤ 100)
    ∧ (0 ≤ iwDbmSignal (-60) ∧ iwDbmSignal (-60) ≤ 100)
    ∧ (0 ≤ (80 : Int)) :=
  ⟨signal_range_contract.1
      (.ok (.arr [.obj [("ssid", .str "HomeNet"), ("bssid", .str "AA:BB:CC:DD:EE:01"),
        ("rssi", .num (-55)), ("frequency_mhz", .num 2437)]]))
      [{ ssid := some "HomeNet", bssid := some "aa:bb:cc:dd:ee:01", signal := some 58,
         rssi_dbm := some (-55), channel := some 6, frequency_mhz := some 2437 }]
      _ (by rfl) (List.mem_singleton.mpr rfl),
   signal_range_contract.2.1 (-60),
   signal_range_contract.2.2.1 ["MyNet\\:Work:aa\\:bb\\:cc\\:dd\\:ee\\:ff:80:6"]
      { ssid := some "MyNet:Work", bssid := some "aa:bb:cc:dd:ee:ff",
        signal := some 80, channel := some 6 } 80 (by decide) rfl⟩

/-- C7 counterexample: a top-level JSON object without an `error` key is
not surfaced as a failure — the empty object is iterated (over its zero
keys) and yields an empty network list. -/
theorem termux_empty_object_ok :
    Termux.get_wifi_bssids (.ok (.obj [])) = .ok [] := rfl

/-- C7 as amended: the structured parser raises the distinguished
scan-level failure exactly for top-level objects containing an `error`
key; an object without that key is iterated over its keys instead — the
empty object yields an empty (successful) list and a non-empty one fails
with an undistinguished `AttributeError` when `.get` is called on a key
string. -/
theorem termux_object_error_contract :
    (∀ (kvs : List (String × JValue)) (v : JValue),
        jLookup kvs "error" = some v →
        Termux.get_wifi_bssids (.ok (.obj kvs)) = .error (.termuxApiError v))
    ∧ Termux.get_wifi_bssids (.ok (.obj [])) = .ok []
    ∧ (∀ (k : String) (v : JValue) (rest : List (String × JValue)),
        jLookup ((k, v) :: rest) "error" = none →
        Termux.get_wifi_bssids (.ok (.obj ((k, v) :: rest))) = .error .attrError) := by
  refine ⟨?_, rfl, ?_⟩
  · intro kvs v h
    unfold Termux.get_wifi_bssids Termux.fromJson
    dsimp only
    rw [h]
  · intro k v rest h
    unfold Termux.get_wifi_bssids Termux.fromJson
    dsimp only
    rw [h]
    simp [Termux.buildAll, Termux.record]

/-- Witness for `termux_object_error_contract` at the error object from
the spec and at a concrete error-less object. -/
theorem termux_object_error_contract_witness :
    Termux.get_wifi_bssids (.ok (.obj [("error", .str "permission denied")])) =
      .error (.termuxApiError (.str "permission denied"))
    ∧ Termux.get_wifi_bssids (.ok (.obj [("foo", .num 1)])) = .error .attrError :=
  ⟨termux_object_error_contract.1 [("error", .str "permission denied")]
      (.str "permission denied") rfl,
   termux_object_error_contract.2.2 "foo" (.num 1) [] rfl⟩

/-- C5: the terse parser treats an escaped colon as a literal character —
the spec's test line yields exactly the expected single record; moreover,
for every parsed line, a non-numeric signal (third) or channel (fourth)
field yields `none` for that field only, while the record (with its bssid)
is still emitted, and any non-blank line with at least four fields does
produce a record. -/
theorem nmcli_terse_parser_contract :
    get_wifi_bssids_nmcli ["MyNet\\:Work:aa\\:bb\\:cc\\:dd\\:ee\\:ff:80:6"] =
      [{ ssid := some "MyNet:Work", bssid := some "aa:bb:cc:dd:ee:ff",
         signal := some 80, channel := some 6 }]
    ∧ (∀ (line : String) (r : Network), parse_nmcli_line line = some r →
        (pyIsDigit ((nmcliFields line).getD 2 []) = false → r.signal = none)
        ∧ (pyIsDigit ((nmcliFields line).getD 3 []) = false → r.channel = none)
        ∧ r.bssid = some (strOf (pyLower
            (pyReplace "##COLON##".data [':'] ((nmcliFields line).getD 1 [])))))
    ∧ (∀ line : String, (pyStrip line.data).isEmpty = false →
        4 ≤ (nmcliFields line).length → ∃ r, parse_nmcli_line line = some r) := by
  refine ⟨by decide, ?_, ?_⟩
  · intro line r h
    unfold parse_nmcli_line at h
    dsimp only at h
    split_ifs at h
    all_goals cases h
    all_goals refine ⟨?_, ?_, rfl⟩
    all_goals intro hd
    all_goals first
      | rfl
      | simp_all
  · intro line h1 h2
    unfold parse_nmcli_line
    dsimp only
    split_ifs
    all_goals first
      | exact ⟨_, rfl⟩
      | simp_all

/-- Witness for `nmcli_terse_parser_contract` at a concrete line with
non-numeric signal and channel fields. -/
theorem nmcli_terse_parser_contract_witness :
    Network.signal { ssid := some "x", bssid := some "y", signal := none, channel := none } = none
    ∧ (∃ r, parse_nmcli_line "x:y:ab:cd" = some r) :=
  ⟨(nmcli_terse_parser_contract.2.1 "x:y:ab:cd"
      { ssid := some "x", bssid := some "y", signal := none, channel := none }
      (by decide)).1 (by decide),
   nmcli_terse_parser_contract.2.2 "x:y:ab:cd" (by decide) (by decide)⟩

/-- C6: both multi-line parsers flush the accumulator whenever an
identifier (BSSID) line is matched while the accumulator already holds an
identifier (clauses 1-2, at the single-step level), and after the final
line any accumulator holding an identifier is flushed exactly once
(clauses 3-4: the whole parse is the line fold followed by one
conditional final append; an accumulator without an identifier is
dropped, which is what the parsers' flush does).  In particular two
consecutive identifier lines with no intervening new-block marker and the
same SSID yield two distinct records (clauses 5-6). -/
theorem multiline_flush_contract :
    (∀ (st : ScanAcc) (line : String) (g : List Char),
        containsL (pyStrip line.data) "BSSID".data = true →
        searchFirst bssidAt (pyStrip line.data) = some g →
        truthyStr st.cur.bssid = true →
        Windows.step st line =
          ⟨st.networks ++ [st.cur], { st.cur with bssid := some (strOf (pyLower g)) }⟩)
    ∧ (∀ (st : ScanAcc) (line : String) (g : List Char),
        isPrefixL "Cell".data (pyStrip line.data) = true →
        searchFirst addressAt (pyStrip line.data) = some g →
        truthyStr st.cur.bssid = true →
        iwStep st line =
          .ok ⟨st.networks ++ [st.cur], { bssid := some (strOf (pyLower g)) }⟩)
    ∧ (∀ lines : List String,
        Windows.get_wifi_bssids lines =
          (Windows.run lines).networks ++
            (if truthyStr (Windows.run lines).cur.bssid then [(Windows.run lines).cur] else []))
    ∧ (∀ (lines : List String) (st : ScanAcc), iwRun {} lines = .ok st →
        get_wifi_bssids_iwlist lines =
          .ok (st.networks ++ (if truthyStr st.cur.bssid then [st.cur] else [])))
    ∧ Windows.get_wifi_bssids
        ["SSID 1 : MyNet", "BSSID 1 : aa:bb:cc:dd:ee:01", "BSSID 2 : aa:bb:cc:dd:ee:02"] =
        [{ ssid := some "MyNet", bssid := some "aa:bb:cc:dd:ee:01" },
         { ssid := some "MyNet", bssid := some "aa:bb:cc:dd:ee:02" }]
    ∧ get_wifi_bssids_iwlist
        ["Cell 01 - Address: AA:BB:CC:DD:EE:01", "Cell 02 - Address: AA:BB:CC:DD:EE:02"] =
        .ok [{ bssid := some "aa:bb:cc:dd:ee:01" }, { bssid := some "aa:bb:cc:dd:ee:02" }] := by
  refine ⟨?_, ?_, ?_, ?_, by decide, by rfl⟩
  · intro st line g hc hs ht
    unfold Windows.step
    simp only [hc, hs, ht, Bool.not_true, Bool.and_false]
    rfl
  · intro st line g hp hs ht
    unfold iwStep
    simp only [hp, hs, ht]
    rfl
  · intro lines
    rfl
  · intro lines st h
    unfold get_wifi_bssids_iwlist
    rw [h]

/-- Witness for `multiline_flush_contract`: the step clauses applied at a
concrete accumulator that already holds an identifier, and the end-flush
clause applied to the empty scan. -/
theorem multiline_flush_contract_witness :
    Windows.step ⟨[], { bssid := some "aa" }⟩ "BSSID 1 : bb:01" =
      ⟨[] ++ [{ bssid := some "aa" }],
       { ({ bssid := some "aa" } : Network) with bssid := some (strOf (pyLower "bb:01".data)) }⟩
    ∧ iwStep ⟨[], { bssid := some "aa" }⟩ "Cell 02 - Address: cc:02" =
      .ok ⟨[] ++ [{ bssid := some "aa" }], { bssid := some (strOf (pyLower "cc:02".data)) }⟩
    ∧ get_wifi_bssids_iwlist [] =
      .ok ((ScanAcc.mk [] {}).networks ++
        (if truthyStr (ScanAcc.mk [] {}).cur.bssid then [(ScanAcc.mk [] {}).cur] else [])) :=
  ⟨multiline_flush_contract.1 ⟨[], { bssid := some "aa" }⟩ "BSSID 1 : bb:01" "bb:01".data
      (by decide) (by decide) (by decide),
   multiline_flush_contract.2.1 ⟨[], { bssid := some "aa" }⟩ "Cell 02 - Address: cc:02"
      "cc:02".data (by decide) (by decide) (by decide),
   multiline_flush_contract.2.2.2.1 [] ⟨[], {}⟩ (by rfl)⟩
